import Mathlib

/-!
Verification of the ZeroMQ PUSH/PULL messaging subsystem of the
`python-labs` repository (directory `socket-sender-receiver-zeromq/`,
files `async-socket-sender.py` and `async-socket-receiver.py`).

The Python code is shallowly embedded: pure helpers become Lean
functions, the interaction of the threads with the shared flags and the
in-process queue become explicit state passing or small-step relations,
and Python exceptions become `Except` values.  Lock-protected critical
sections of the source (the counter increment, the registry update) are
modelled as atomic state transformations.  The receiver guard
`if not shutdown_event.is_set()` and the `message_queue.put` that
follows it are two separate unlocked operations; where their
interleaving with the other threads matters (the queue-processor
conservation model) the flag read and the put are separate steps.
-/

namespace ZmqLab

/-! ## The in-process queue (`queue.Queue` of the Python standard library)

`async-socket-receiver.py`, `init_global_variables` (line 68) creates
`message_queue = queue.Queue()`.  `queue.Queue(maxsize)` is a FIFO that
is bounded only when `maxsize > 0`; the default `maxsize` is `0`, which
means an infinite queue whose `put` never blocks. -/

structure PyQueue (α : Type) where
  maxsize : Int
  items : List α
deriving DecidableEq

/-- Number of items currently in the queue (`queue.qsize()`). -/
def PyQueue.size {α : Type} (q : PyQueue α) : Nat := q.items.length

/-- A `queue.Queue` is full exactly when it is bounded (`maxsize > 0`)
and holds at least `maxsize` items. -/
def PyQueue.isFull {α : Type} (q : PyQueue α) : Bool :=
  decide (0 < q.maxsize) && decide (q.maxsize ≤ (q.items.length : Int))

/-- Blocking `queue.put`: on a full bounded queue the producer blocks
(modelled as `none`); otherwise the item is appended at the back. -/
def PyQueue.put {α : Type} (q : PyQueue α) (x : α) : Option (PyQueue α) :=
  if q.isFull then none else some { q with items := q.items ++ [x] }

/-- Blocking `queue.get`: returns the front item, or `none` when empty
(the timeout path of the caller). -/
def PyQueue.get {α : Type} (q : PyQueue α) : Option (α × PyQueue α) :=
  match q.items with
  | [] => none
  | x :: xs => some (x, { q with items := xs })

/-- The in-process message queue of the receiver as created by
`init_global_variables`: `queue.Queue()`, i.e. default `maxsize = 0`. -/
def message_queue_init : PyQueue String := ⟨0, []⟩

/-- Enqueue a whole list of messages in order; `none` as soon as one
`put` would block. -/
def putAll (q : PyQueue String) : List String → Option (PyQueue String)
  | [] => some q
  | m :: ms =>
    match q.put m with
    | none => none
    | some q2 => putAll q2 ms

theorem putAll_of_unbounded (msgs : List String) (q : PyQueue String)
    (h : q.maxsize ≤ 0) :
    putAll q msgs = some { q with items := q.items ++ msgs } := by
  induction msgs generalizing q with
  | nil => simp [putAll]
  | cons m ms ih =>
    have hfull : q.isFull = false := by
      simp [PyQueue.isFull]
      omega
    simp [putAll, PyQueue.put, hfull]
    rw [ih { q with items := q.items ++ [m] } h]
    simp

/-- Claim C1 is false on the code: the in-process message queue is
created as `queue.Queue()` with the default `maxsize = 0`, hence it is
unbounded.  Starting from the actual initial queue, 101 consecutive
`put` calls all succeed immediately (none blocks or retries) and the
resulting size is 101, which exceeds the alleged capacity 100. -/
theorem queue_capacity_counterexample :
    (putAll message_queue_init (List.replicate 101 "Task")).map PyQueue.size
      = some 101 ∧ 100 < 101 := by
  constructor
  · rw [putAll_of_unbounded (List.replicate 101 "Task") message_queue_init le_rfl]
    simp [PyQueue.size, message_queue_init]
  · norm_num

/-- Claim C1, amended: the in-process message queue is an unbounded FIFO
(`queue.Queue()` with default `maxsize = 0`).  Every `put` succeeds
immediately without blocking, retrying, or dropping: after enqueuing any
list of messages the queue holds exactly those messages in FIFO order
(so its size equals the number of messages enqueued, with no a-priori
capacity bound), and `get` returns the oldest message first. -/
theorem message_queue_unbounded :
    message_queue_init.maxsize = 0 ∧
    (∀ msgs : List String, putAll message_queue_init msgs = some ⟨0, msgs⟩) ∧
    (∀ (m : String) (ms : List String),
      PyQueue.get ⟨0, m :: ms⟩ = some (m, (⟨0, ms⟩ : PyQueue String))) := by
  refine ⟨rfl, ?_, ?_⟩
  · intro msgs
    rw [putAll_of_unbounded msgs message_queue_init le_rfl]
    rfl
  · intro m ms
    rfl

/-! ## Shared flags of the sender program

`async-socket-sender.py` coordinates its threads through two
`threading.Event` objects, `shutdown_event` and `server_available`
(`init_global_variables`, lines 33-35).  A `Flags` value records both
booleans.  Every statement of either program that mutates one of the
two events appears below as a `FlagOp`. -/

structure Flags where
  shutdown : Bool
  serverAvailable : Bool
deriving DecidableEq

/-- Sender `handle_server_check_failure` (lines 290-297): when the
server still looks available, clear availability, set shutdown and
report `True`; otherwise leave the flags alone and report `False`. -/
def handle_server_check_failure (f : Flags) : Flags × Bool :=
  if f.serverAvailable then (⟨true, false⟩, true) else (f, false)

/-- Sender `handle_server_check_success` (lines 299-303): re-set the
availability flag when it had been cleared. -/
def handle_server_check_success (f : Flags) : Flags :=
  if !f.serverAvailable then ⟨f.shutdown, true⟩ else f

/-- Every flag-mutating operation of the two programs:
the fatal-failure escalations of the sender
(`connect_to_server`, `send_message_with_retry`, `push_worker`,
`initialize_context`: `server_available.clear(); shutdown_event.set()`),
the sender `signal_handler`
(`shutdown_event.set(); server_available.clear()`),
the two monitor check handlers, and the plain `shutdown_event.set()`
calls (receiver `signal_handler` and `run_main_loop`, sender
`wait_for_threads` and the `main` error paths of both programs).
No statement of either file ever calls `shutdown_event.clear()`. -/
inductive FlagOp
  | escalate_failure
  | sender_signal_handler
  | server_check_failure
  | server_check_success
  | set_shutdown
deriving DecidableEq

def applyFlagOp (f : Flags) : FlagOp → Flags
  | .escalate_failure => ⟨true, false⟩
  | .sender_signal_handler => ⟨true, false⟩
  | .server_check_failure => (handle_server_check_failure f).1
  | .server_check_success => handle_server_check_success f
  | .set_shutdown => ⟨true, f.serverAvailable⟩

def runFlagOps (f : Flags) (ops : List FlagOp) : Flags :=
  ops.foldl applyFlagOp f

theorem applyFlagOp_shutdown_mono (f : Flags) (op : FlagOp)
    (h : f.shutdown = true) : (applyFlagOp f op).shutdown = true := by
  cases op <;>
    simp [applyFlagOp, handle_server_check_failure, handle_server_check_success] <;>
    rcases f with ⟨s, a⟩ <;> cases a <;> simp_all

/-- Claim C5: the shutdown flag is monotone.  After any interleaving of
the flag-mutating operations of the sender and the receiver program,
a state in which `shutdown_event` is set can never evolve into one in
which it is clear: no operation of either program clears the flag. -/
theorem shutdown_flag_monotone (f : Flags) (ops : List FlagOp)
    (h : f.shutdown = true) : (runFlagOps f ops).shutdown = true := by
  induction ops generalizing f with
  | nil => simpa [runFlagOps]
  | cons op ops ih =>
    have h2 := applyFlagOp_shutdown_mono f op h
    simpa [runFlagOps, List.foldl_cons] using ih (applyFlagOp f op) h2

/-- Witness for C5 at a concrete state and operation sequence. -/
theorem shutdown_flag_monotone_witness :
    (runFlagOps ⟨true, true⟩
      [FlagOp.server_check_success, FlagOp.server_check_failure,
       FlagOp.set_shutdown]).shutdown = true :=
  shutdown_flag_monotone ⟨true, true⟩
    [FlagOp.server_check_success, FlagOp.server_check_failure,
     FlagOp.set_shutdown] rfl

/-! ## The liveness monitor (`monitor_server_availability`, sender lines 305-331)

Each iteration of the monitor loop probes the server once
(`test_server_connection`); the probe outcomes are the only input of
the loop, so an execution of the loop is modelled as a function of the
list of probe results.  The flags are mutated by the monitor itself
through the two check handlers; the sequential model holds them fixed
between its own writes. -/

structure MonitorState where
  flags : Flags
  consecutiveFailures : Nat
deriving DecidableEq

inductive LoopOutcome
  | continue_ (st : MonitorState)
  | exit_ (st : MonitorState)
deriving DecidableEq

/-- One iteration of the monitor `while` body.  On a successful probe
the failure streak is reset to `0` and `handle_server_check_success`
runs; on a failed probe the streak is incremented and
`handle_server_check_failure` runs, and the loop `break`s when that
handler reports `True`.  The trailing `interruptible_sleep` makes the
iteration exit as well when the shutdown flag is set at that point. -/
def monitorIteration (probe : Bool) (st : MonitorState) : LoopOutcome :=
  if probe then
    let f := handle_server_check_success st.flags
    if f.shutdown then .exit_ ⟨f, 0⟩ else .continue_ ⟨f, 0⟩
  else
    let cf := st.consecutiveFailures + 1
    let fb := handle_server_check_failure st.flags
    if fb.2 then .exit_ ⟨fb.1, cf⟩
    else if fb.1.shutdown then .exit_ ⟨fb.1, cf⟩
    else .continue_ ⟨fb.1, cf⟩

/-- The monitor loop `while not shutdown_event.is_set()` over a list of
probe outcomes. -/
def monitorLoop : List Bool → MonitorState → MonitorState
  | [], st => st
  | p :: ps, st =>
    if st.flags.shutdown then st
    else
      match monitorIteration p st with
      | .exit_ st2 => st2
      | .continue_ st2 => monitorLoop ps st2

/-- Claim C6: while shutdown is not set, a successful probe resets the
consecutive-failure counter to `0` and (re-)sets the availability flag;
a failed probe with availability still set immediately clears
availability, sets shutdown and exits the loop; consequently a run that
sees any number of successes followed by a first failure ends right at
that failure with flags `(shutdown, available) = (true, false)` and a
failure streak of `1`, ignoring all later probes. -/
theorem monitor_fail_fast :
    (∀ (a : Bool) (cf : Nat),
      monitorIteration true ⟨⟨false, a⟩, cf⟩ =
        .continue_ ⟨⟨false, true⟩, 0⟩) ∧
    (∀ cf : Nat,
      monitorIteration false ⟨⟨false, true⟩, cf⟩ =
        .exit_ ⟨⟨true, false⟩, cf + 1⟩) ∧
    (∀ (k : Nat) (rest : List Bool),
      monitorLoop (List.replicate k true ++ false :: rest) ⟨⟨false, true⟩, 0⟩ =
        ⟨⟨true, false⟩, 1⟩) := by
  refine ⟨?_, ?_, ?_⟩
  · intro a cf
    cases a <;> simp [monitorIteration, handle_server_check_success]
  · intro cf
    simp [monitorIteration, handle_server_check_failure]
  · intro k rest
    induction k with
    | zero =>
      simp [monitorLoop, monitorIteration, handle_server_check_failure]
    | succ n ih =>
      simpa [List.replicate_succ, monitorLoop, monitorIteration,
        handle_server_check_success] using ih

/-! ## Interruptible sleep (`interruptible_sleep`, sender lines 74-81)

The Python function computes `steps = int(duration * 20)` and then runs
`steps` chunks, each of which first checks `shutdown_event` and then
sleeps `0.05` seconds.  The duration is modelled as a rational number;
`int()` truncates toward zero, and the number of chunks `range(steps)`
executes is `max 0 (trunc (duration * 20))`, which equals
`(Int.floor (duration * 20)).toNat` for every rational argument.  The
flag is modelled as a function of the check index, so a concurrent
setting of the flag at any point is expressible. -/

def stepsOf (duration : ℚ) : Nat := (⌊duration * 20⌋).toNat

/-- The chunk loop of `interruptible_sleep`: `n` chunks remain and `k`
chunks have been executed; each chunk checks the flag first and aborts
with `False` when it is set.  Returns the Python result together with
the number of chunks executed. -/
def sleep_go (flag : Nat → Bool) : Nat → Nat → Bool × Nat
  | 0, k => (true, k)
  | n + 1, k => if flag k then (false, k) else sleep_go flag n (k + 1)

def interruptible_sleep (duration : ℚ) (flag : Nat → Bool) : Bool × Nat :=
  sleep_go flag (stepsOf duration) 0

theorem sleep_go_all_false (flag : Nat → Bool) (n k : Nat)
    (h : ∀ i, i < n → flag (k + i) = false) :
    sleep_go flag n k = (true, k + n) := by
  induction n generalizing k with
  | zero => simp [sleep_go]
  | succ m ih =>
    have h0 : flag k = false := by simpa using h 0 (Nat.succ_pos m)
    have h2 : ∀ i, i < m → flag (k + 1 + i) = false := by
      intro i hi
      have := h (i + 1) (by omega)
      simpa [Nat.add_assoc, Nat.add_comm 1 i] using this
    simp [sleep_go, h0, ih (k + 1) h2]
    omega

theorem sleep_go_first_true (flag : Nat → Bool) (n k j : Nat)
    (hj : j < n) (ht : flag (k + j) = true)
    (hf : ∀ i, i < j → flag (k + i) = false) :
    sleep_go flag n k = (false, k + j) := by
  induction j generalizing n k with
  | zero =>
    obtain ⟨m, rfl⟩ : ∃ m, n = m + 1 := ⟨n - 1, by omega⟩
    simp at ht
    simp [sleep_go, ht]
  | succ i ih =>
    obtain ⟨m, rfl⟩ : ∃ m, n = m + 1 := ⟨n - 1, by omega⟩
    have h0 : flag k = false := by simpa using hf 0 (Nat.succ_pos i)
    have ht2 : flag (k + 1 + i) = true := by
      simpa [Nat.add_assoc, Nat.add_comm 1 i] using ht
    have hf2 : ∀ l, l < i → flag (k + 1 + l) = false := by
      intro l hl
      have := hf (l + 1) (by omega)
      simpa [Nat.add_assoc, Nat.add_comm 1 l] using this
    have := ih m (k + 1) (by omega) ht2 hf2
    simp [sleep_go, h0, this]
    omega

/-- Claim C9: `interruptible_sleep duration` executes
`(duration * 20).floor.toNat` chunks of `0.05` seconds — which for a
nonnegative duration is exactly `floor (duration * 20)` — checking the
shutdown flag before each chunk.  It returns `True` after all chunks
when the flag is never observed set, returns `False` having executed
exactly `j` chunks when the flag is first observed set at check `j`,
and for any duration below `0.05` it executes zero chunks and returns
`True` immediately without consulting the flag at all, even when the
flag is already set. -/
theorem interruptible_sleep_spec :
    (∀ d : ℚ, 0 ≤ d → (stepsOf d : Int) = ⌊d * 20⌋) ∧
    (∀ (d : ℚ) (flag : Nat → Bool),
      (∀ k, k < stepsOf d → flag k = false) →
      interruptible_sleep d flag = (true, stepsOf d)) ∧
    (∀ (d : ℚ) (flag : Nat → Bool) (j : Nat),
      j < stepsOf d → flag j = true → (∀ k, k < j → flag k = false) →
      interruptible_sleep d flag = (false, j)) ∧
    (∀ (d : ℚ) (flag : Nat → Bool), d < 1 / 20 →
      interruptible_sleep d flag = (true, 0)) := by
  refine ⟨?_, ?_, ?_, ?_⟩
  · intro d hd
    have : (0 : ℚ) ≤ d * 20 := by positivity
    exact Int.toNat_of_nonneg (Int.floor_nonneg.mpr this)
  · intro d flag h
    have := sleep_go_all_false flag (stepsOf d) 0 (by simpa using h)
    simpa [interruptible_sleep] using this
  · intro d flag j hj ht hf
    have := sleep_go_first_true flag (stepsOf d) 0 j hj (by simpa using ht)
      (by simpa using hf)
    simpa [interruptible_sleep] using this
  · intro d flag hd
    have h20 : d * 20 < 1 := by linarith
    have hfl : ⌊d * 20⌋ < 1 := Int.floor_lt.mpr (by exact_mod_cast h20)
    have hz : stepsOf d = 0 := by
      simp [stepsOf]
      omega
    simp [interruptible_sleep, hz, sleep_go]

/-- Witness for C9: with duration `0.5` (ten chunks) and the flag never
set the sleep completes all ten chunks, and with duration `0.04` the
sleep returns immediately even though the flag is set from the start. -/
theorem interruptible_sleep_spec_witness :
    interruptible_sleep (1 / 2) (fun _ => false) = (true, stepsOf (1 / 2)) ∧
    interruptible_sleep (1 / 25) (fun _ => true) = (true, 0) :=
  ⟨interruptible_sleep_spec.2.1 (1 / 2) (fun _ => false) (fun _ _ => rfl),
   interruptible_sleep_spec.2.2.2 (1 / 25) (fun _ => true) (by norm_num)⟩

/-! ## Sending one message (`send_message_with_retry`, sender lines 83-145)

Each iteration of the `while message_failures < max_failures` loop
performs at most one `socket.send_string` call; the outcome of the
`i`-th send attempt is drawn from a script `outcomes : Nat → SendOutcome`.
The outcomes mirror the four `except` arms of the source:
`zmq.Again` (send timeout), a `zmq.ZMQError` whose text marks the
socket/context as already terminated, any other `zmq.ZMQError`
(the hard transport errors: broken pipe, refused connection, ...), and
a non-ZMQ exception.  The flags are read at the loop head and mutated
only by the escalations inside the loop, which all return at once, so
the sequential model threads a single `Flags` value through the call. -/

inductive SendOutcome
  | ok
  | timeout
  | termError
  | hardError
  | otherError
deriving DecidableEq

/-- Reason strings returned by `send_message_with_retry`. -/
inductive SendReason
  | success
  | shutdown_or_server_unavailable
  | server_timeout
  | shutdown_during_retry
  | context_terminated
  | zmq_error
  | shutdown_during_error_recovery
  | unexpected_error
  | max_retries_exceeded
deriving DecidableEq

structure SendResult where
  success : Bool
  reason : SendReason
  flags : Flags
  attempts : Nat
deriving DecidableEq

/-- Sender line 86: `max_failures = 2`. -/
def max_failures : Nat := 2

/-- The retry loop of `send_message_with_retry`.  `fuel` bounds the
remaining iterations (the loop runs at most `max_failures` times since
every non-returning arm increments `failures`), `failures` is
`message_failures` and `idx` counts the send calls performed so far.
The `interruptible_sleep (0.5)` before a retry returns `False` exactly
when the shutdown flag is set at that point. -/
def send_loop (outcomes : Nat → SendOutcome) (flags : Flags) :
    Nat → Nat → Nat → SendResult
  | 0, _, idx => ⟨false, .max_retries_exceeded, flags, idx⟩
  | fuel + 1, failures, idx =>
    if max_failures ≤ failures then
      ⟨false, .max_retries_exceeded, flags, idx⟩
    else if flags.shutdown || !flags.serverAvailable then
      ⟨false, .shutdown_or_server_unavailable, flags, idx⟩
    else
      match outcomes idx with
      | .ok => ⟨true, .success, flags, idx + 1⟩
      | .timeout =>
        if max_failures ≤ failures + 1 then
          ⟨false, .server_timeout, ⟨true, false⟩, idx + 1⟩
        else if flags.shutdown then
          ⟨false, .shutdown_during_retry, flags, idx + 1⟩
        else
          send_loop outcomes flags fuel (failures + 1) (idx + 1)
      | .termError => ⟨false, .context_terminated, flags, idx + 1⟩
      | .hardError =>
        if max_failures ≤ failures + 1 then
          ⟨false, .zmq_error, ⟨true, false⟩, idx + 1⟩
        else if flags.shutdown then
          ⟨false, .shutdown_during_error_recovery, flags, idx + 1⟩
        else
          send_loop outcomes flags fuel (failures + 1) (idx + 1)
      | .otherError => ⟨false, .unexpected_error, flags, idx + 1⟩

def send_message_with_retry (outcomes : Nat → SendOutcome) (flags : Flags) :
    SendResult :=
  send_loop outcomes flags max_failures 0 0

/-- Script for the C3 counterexample: the first send hits a hard ZMQ
error (e.g. broken pipe); the second send succeeds. -/
def hardThenOk : Nat → SendOutcome :=
  fun i => if i = 0 then .hardError else .ok

/-- Claim C3 is false on the code: a worker whose first send raises a
hard (non-timeout, non-terminated) `zmq.ZMQError` does not treat it as
fatal.  With shutdown clear and the server marked available, the call
performs a second send attempt (a retry) and returns success with both
flags untouched — no escalation happened on the first hard error. -/
theorem hard_error_retry_counterexample :
    send_message_with_retry hardThenOk ⟨false, true⟩ =
      ⟨true, .success, ⟨false, true⟩, 2⟩ := by
  decide

/-- Claim C3, amended: a hard transport error (generic `zmq.ZMQError`)
is retried, not fatal on first occurrence: the worker sleeps briefly
and re-attempts the send, and only when hard errors reach
`max_failures = 2` consecutive failures does it escalate — clear the
Server-Availability flag, set the Shutdown Flag and return
`zmq_error` — as witnessed by any script whose first two outcomes are
hard errors.  (Errors marking the socket or context as already
terminated instead return immediately with no retry and no
escalation.) -/
theorem hard_error_escalates_on_second_failure (outcomes : Nat → SendOutcome)
    (h0 : outcomes 0 = .hardError) (h1 : outcomes 1 = .hardError) :
    send_message_with_retry outcomes ⟨false, true⟩ =
      ⟨false, .zmq_error, ⟨true, false⟩, 2⟩ := by
  simp [send_message_with_retry, max_failures, send_loop, h0, h1]

/-- Witness for the amended C3 on the all-hard-errors script. -/
theorem hard_error_escalates_on_second_failure_witness :
    send_message_with_retry (fun _ => SendOutcome.hardError) ⟨false, true⟩ =
      ⟨false, .zmq_error, ⟨true, false⟩, 2⟩ :=
  hard_error_escalates_on_second_failure (fun _ => SendOutcome.hardError)
    rfl rfl

/-! ## Cleanup routines

Sender `cleanup_socket` (lines 147-173) and receiver
`cleanup_zmq_context` (lines 385-396).  Python exceptions are modelled
with `Except String`: a raising primitive is `.error`, a `try/except`
block is `pyTry`, and a routine that can propagate an exception to its
caller would have to produce `.error`.  Sockets are identified by
numbers; whether the underlying `setsockopt`/`close`/`term` primitives
raise (for instance because the handle or the context is already
closed) is an input of the model, so the theorems cover the
already-closed and already-terminated cases as well as repeated calls. -/

def pyTry {α : Type} (body : Except String α)
    (handler : String → Except String α) : Except String α :=
  match body with
  | .ok a => .ok a
  | .error e => handler e

structure SocketCleanupEnv where
  setsockoptRaises : Bool
  closeRaises : Bool
deriving DecidableEq

/-- Python `socket.setsockopt(zmq.LINGER, 0)` (sender line 152). -/
def pySetsockoptLinger (env : SocketCleanupEnv) : Except String Unit :=
  if env.setsockoptRaises then .error "setsockopt failed" else .ok ()

/-- Python `socket.close()` (sender line 154). -/
def pyCloseSocket (env : SocketCleanupEnv) : Except String Unit :=
  if env.closeRaises then .error "close failed" else .ok ()

/-- The guarded removal `if socket in active_sockets:
active_sockets.remove(socket)` executed under `socket_lock`.
`list.remove` deletes the first occurrence only. -/
def removeFromActive (registry : List Nat) (s : Nat) : List Nat :=
  if s ∈ registry then registry.erase s else registry

/-- Sender `cleanup_socket`: for a non-`None` socket it tries to set
linger, close the handle and deregister it; the `except Exception`
handler retries the deregistration inside a second `try/except` so that
no path propagates an exception.  Returns the new registry. -/
def cleanup_socket (sock : Option Nat) (env : SocketCleanupEnv)
    (registry : List Nat) : Except String (List Nat) :=
  match sock with
  | none => .ok registry
  | some s =>
    pyTry
      (do
        pySetsockoptLinger env
        pyCloseSocket env
        pure (removeFromActive registry s))
      (fun _ =>
        pyTry (pure (removeFromActive registry s)) (fun _ => .ok registry))

/-- Receiver `cleanup_zmq_context`: the call `zmq_context.term()` wrapped in
`try/except Exception`, with a pure log when the context is `None`. -/
def cleanup_zmq_context (ctx : Option Nat) (termRaises : Bool) :
    Except String Unit :=
  match ctx with
  | none => .ok ()
  | some _ =>
    pyTry (if termRaises then .error "term failed" else .ok ())
      (fun _ => .ok ())

/-- Claim C7: the cleanup routines are idempotent and non-throwing.
Whatever the socket, the registry and the behaviour of the underlying
primitives — including `close` raising because the handle is already
closed, and `term` raising because the context is already terminated,
i.e. any repeated invocation — `cleanup_socket` and
`cleanup_zmq_context` return normally (`Except.ok`) on every path and
never propagate an exception. -/
theorem cleanup_never_raises :
    (∀ (sock : Option Nat) (env : SocketCleanupEnv) (registry : List Nat),
      ∃ r, cleanup_socket sock env registry = .ok r) ∧
    (∀ (ctx : Option Nat) (termRaises : Bool),
      cleanup_zmq_context ctx termRaises = .ok ()) := by
  constructor
  · intro sock env registry
    cases sock with
    | none => exact ⟨registry, rfl⟩
    | some s =>
      rcases env with ⟨so, cl⟩
      cases so <;> cases cl <;> exact ⟨removeFromActive registry s, rfl⟩
  · intro ctx termRaises
    cases ctx with
    | none => rfl
    | some c => cases termRaises <;> rfl

/-- Claim C10: for a non-`None` socket, every exit path of the sender
routine `cleanup_socket` — the normal path and the path on which closing the
socket raised — deregisters the socket, and provided the socket was
registered at most once (as `setup_socket` guarantees, appending each
freshly created socket exactly once), the socket is no longer present
in the registry that `cleanup_socket` returns. -/
theorem cleanup_socket_deregisters (s : Nat) (env : SocketCleanupEnv)
    (registry : List Nat) (h : registry.count s ≤ 1) :
    cleanup_socket (some s) env registry =
      .ok (removeFromActive registry s) ∧
    s ∉ removeFromActive registry s := by
  constructor
  · rcases env with ⟨so, cl⟩
    cases so <;> cases cl <;> rfl
  · by_cases hm : s ∈ registry
    · have hc : registry.count s = 1 := by
        have := List.count_pos_iff.mpr hm
        omega
      have hz : (registry.erase s).count s = 0 := by
        rw [List.count_erase_self, hc]
      simp only [removeFromActive, hm, if_true]
      exact List.count_eq_zero.mp hz
    · simpa only [removeFromActive, hm, if_false] using hm

/-- Witness for C10: a registry holding sockets `1` and `2` once each;
cleaning up socket `1` (with a close that raises) removes it. -/
theorem cleanup_socket_deregisters_witness :
    cleanup_socket (some 1) ⟨false, true⟩ [1, 2] =
      .ok (removeFromActive [1, 2] 1) ∧
    1 ∉ removeFromActive [1, 2] 1 :=
  cleanup_socket_deregisters 1 ⟨false, true⟩ [1, 2] (by decide)

/-! ## Receiving one message (`process_received_message`, receiver lines 218-239)

The per-message handler of the receiver increments the lock-protected
`message_counter`, formats one diagnostic log line carrying the fresh
counter value and the extracted client identity, and then enqueues the
message unless `shutdown_event` is set.  The lock-protected increment
and the guarded `put` are modelled as atomic updates of a `RecvState`. -/

/-- Python `message.startswith(pre)`. -/
def pyStartswith (message pre : String) : Bool :=
  pre.data.isPrefixOf message.data

/-- Index of the first occurrence of `sep` as a contiguous sublist of
`l`, scanning left to right; `none` when `sep` does not occur. -/
def firstOccurrence (sep : List Char) : List Char → Option Nat
  | [] => if sep.isEmpty then some 0 else none
  | c :: rest =>
    if sep.isPrefixOf (c :: rest) then some 0
    else (firstOccurrence sep rest).map (· + 1)

/-- Python `sep in message`. -/
def containsSub (message sep : String) : Bool :=
  (firstOccurrence sep.data message.data).isSome

/-- Python `message.split(sep)[0]` for a separator that occurs in the
message: the text before the first occurrence of `sep`; the whole
message when `sep` does not occur. -/
def beforeFirst (message sep : String) : String :=
  match firstOccurrence sep.data message.data with
  | some i => ⟨message.data.take i⟩
  | none => message

/-- Receiver `extract_client_info` (lines 90-102): a payload starting
with the heartbeat marker is returned whole; otherwise, when the
message contains `" - "`, the text before its first occurrence
(component 0 of the Python split) is the client identity; any other payload
yields the fallback. -/
def extract_client_info (message : String) : String :=
  if pyStartswith message "__HEARTBEAT__" then message
  else if containsSub message " - " then beforeFirst message " - "
  else "Unknown-Client"

/-- One diagnostic log line of the receiver: the fresh sequence id, the
extracted client identity, and the raw message. -/
structure MsgLogEntry where
  msgId : Nat
  clientInfo : String
  message : String
deriving DecidableEq

structure RecvState where
  counter : Nat
  shutdown : Bool
  queue : PyQueue String
  log : List MsgLogEntry
deriving DecidableEq

/-- Receiver `process_received_message`: increment the counter under
`counter_lock`, log one line with the new id, then
`if not shutdown_event.is_set(): message_queue.put(message)`.
The result is `none` only if that `put` would block. -/
def process_received_message (st : RecvState) (message : String) :
    Option RecvState :=
  let msgId := st.counter + 1
  let entry : MsgLogEntry := ⟨msgId, extract_client_info message, message⟩
  if st.shutdown then
    some { st with counter := msgId, log := st.log ++ [entry] }
  else
    (st.queue.put message).map fun q =>
      { st with counter := msgId, log := st.log ++ [entry], queue := q }

/-- Claim C4: on the (unbounded) receiver queue,
`process_received_message` always completes and produces exactly one
new log entry whose sequence id is the freshly incremented counter
(hence ids are strictly ascending across messages), and the message is
appended to the in-process queue if and only if the shutdown flag is
not set at that point — with the flag set it is logged but dropped. -/
theorem process_received_message_spec (st : RecvState) (message : String)
    (h : st.queue.maxsize ≤ 0) :
    process_received_message st message =
      some { st with
        counter := st.counter + 1,
        log := st.log ++
          [⟨st.counter + 1, extract_client_info message, message⟩],
        queue := if st.shutdown then st.queue
          else { st.queue with items := st.queue.items ++ [message] } } := by
  have hfull : st.queue.isFull = false := by
    simp [PyQueue.isFull]
    omega
  cases hs : st.shutdown <;>
    simp [process_received_message, PyQueue.put, hfull, hs]

/-- Witness for C4 at a concrete state and an ordinary task message. -/
theorem process_received_message_spec_witness :
    process_received_message ⟨7, false, ⟨0, []⟩, []⟩ "Pusher-1 - Task 3" =
      some ⟨8, false, ⟨0, ["Pusher-1 - Task 3"]⟩,
        [⟨8, "Pusher-1", "Pusher-1 - Task 3"⟩]⟩ := by
  rw [process_received_message_spec ⟨7, false, ⟨0, []⟩, []⟩
    "Pusher-1 - Task 3" (by decide)]
  decide

/-- Claim C8: a heartbeat payload is handled exactly like an ordinary
task message: the counter is incremented, one sequence-id log line is
produced whose client-identity field is the full heartbeat payload
(`extract_client_info` returns the message whole), and — shutdown not
being set — the heartbeat is enqueued on the in-process queue for the
queue processor, so the counter and the processed-message count include
heartbeats. -/
theorem heartbeat_handled_like_tasks (st : RecvState) (hb : String)
    (hq : st.queue.maxsize ≤ 0) (hsd : st.shutdown = false)
    (hhb : pyStartswith hb "__HEARTBEAT__" = true) :
    process_received_message st hb =
      some { st with
        counter := st.counter + 1,
        log := st.log ++ [⟨st.counter + 1, hb, hb⟩],
        queue := { st.queue with items := st.queue.items ++ [hb] } } := by
  have hci : extract_client_info hb = hb := by
    simp [extract_client_info, hhb]
  rw [process_received_message_spec st hb hq, hci, hsd]
  simp

/-- Witness for C8 on the actual heartbeat payload shape of the sender. -/
theorem heartbeat_handled_like_tasks_witness :
    process_received_message ⟨3, false, ⟨0, []⟩, []⟩ "__HEARTBEAT__[PID:42]" =
      some ⟨4, false, ⟨0, ["__HEARTBEAT__[PID:42]"]⟩,
        [⟨4, "__HEARTBEAT__[PID:42]", "__HEARTBEAT__[PID:42]"⟩]⟩ := by
  rw [heartbeat_handled_like_tasks ⟨3, false, ⟨0, []⟩, []⟩
    "__HEARTBEAT__[PID:42]" (by decide) rfl (by decide)]
  rfl

/-! ## The queue processor (`queue_processor`, receiver lines 293-333)

The receiver thread enqueues (guarded by the shutdown flag, receiver
lines 238-239) while the single `queue_processor` thread consumes.  The
interleaving of the two threads and of the shutdown signal is modelled
as a small-step relation on a system state.  The control point of the
processor is its phase: `running` (inside the `while not shutdown` loop),
`holding m` (it has dequeued `m` but not yet passed the post-`get`
shutdown check), `draining` (the final cleanup loop over the remaining
items), and `done`.  Processing a message logs one `[PROC]` line
(counted by `processed`); draining a message logs one `[CLEANUP]` line
(counted by `drained`).  The receiver guard and the `put` that follows
it are not under any lock, so they are two separate steps: the receiver
control point `recvPending` records a message whose guard read the flag
as clear but whose `put` has not happened yet — the `put` may then land
at any later time, even after the processor has finished its drain
pass. -/

inductive ProcPhase
  | running
  | holding (msg : String)
  | draining
  | done
deriving DecidableEq

structure SysState where
  queue : List String
  processed : Nat
  drained : Nat
  enqueued : Nat
  shutdown : Bool
  phase : ProcPhase
  recvPending : Option String
deriving DecidableEq

def SysState.init : SysState := ⟨[], 0, 0, 0, false, .running, none⟩

/-- One step of the receiver/processor/shutdown interleaving.

* `recvCheck`: receiver line 238 — the guard
  `if not shutdown_event.is_set()` reads the flag as clear for message
  `m` (a guard that reads the flag as set logs the message and drops it
  with no state change, so it needs no step).  The receiver is a single
  thread, hence at most one pending `put`.
* `recvPut`: receiver line 239 — the pending `message_queue.put`
  lands on the unbounded queue; this is the successful enqueue, and it
  can happen at any time after its guard, regardless of the current
  flag value.
* `setShutdown`: some thread sets `shutdown_event` (never cleared).
* `getItem`: the processor call `message_queue.get(timeout=0.5)` returns
  the front message (the loop-head check saw the flag clear when the
  iteration began).
* `processItem` / `requeueItem`: the post-`get` check
  `if not shutdown_event.is_set()`: process and log, or put the
  in-flight message back and `break` into the drain phase.
* `exitLoop`: the loop head observes the flag and exits into the drain
  phase.
* `drainItem` / `finish`: the cleanup loop
  `while not message_queue.empty(): get_nowait()` logs each remaining
  message, then the processor returns. -/
inductive SysStep : SysState → SysState → Prop
  | recvCheck (s : SysState) (m : String) (h : s.shutdown = false)
      (hp : s.recvPending = none) :
      SysStep s { s with recvPending := some m }
  | recvPut (s : SysState) (m : String) (hp : s.recvPending = some m) :
      SysStep s { s with queue := s.queue ++ [m], enqueued := s.enqueued + 1, recvPending := none }
  | setShutdown (s : SysState) :
      SysStep s { s with shutdown := true }
  | getItem (s : SysState) (m : String) (rest : List String)
      (hp : s.phase = .running) (hq : s.queue = m :: rest) :
      SysStep s { s with queue := rest, phase := .holding m }
  | processItem (s : SysState) (m : String)
      (hp : s.phase = .holding m) (hs : s.shutdown = false) :
      SysStep s { s with processed := s.processed + 1, phase := .running }
  | requeueItem (s : SysState) (m : String)
      (hp : s.phase = .holding m) (hs : s.shutdown = true) :
      SysStep s { s with queue := s.queue ++ [m], phase := .draining }
  | exitLoop (s : SysState)
      (hp : s.phase = .running) (hs : s.shutdown = true) :
      SysStep s { s with phase := .draining }
  | drainItem (s : SysState) (m : String) (rest : List String)
      (hp : s.phase = .draining) (hq : s.queue = m :: rest) :
      SysStep s { s with queue := rest, drained := s.drained + 1 }
  | finish (s : SysState)
      (hp : s.phase = .draining) (hq : s.queue = []) :
      SysStep s { s with phase := .done }

def Reachable (s : SysState) : Prop :=
  Relation.ReflTransGen SysStep SysState.init s

/-- Number of in-flight messages held by the processor. -/
def holdCount : ProcPhase → Nat
  | .holding _ => 1
  | _ => 0

/-- Conservation invariant: every successfully enqueued message is in
the queue, in flight at the processor, processed, or drained. -/
def SysInv (s : SysState) : Prop :=
  s.enqueued = s.processed + s.drained + s.queue.length + holdCount s.phase

theorem sysInv_init : SysInv SysState.init := by
  simp [SysInv, SysState.init, holdCount]

theorem sysInv_step (s t : SysState) (hst : SysStep s t) (hinv : SysInv s) :
    SysInv t := by
  unfold SysInv at hinv ⊢
  cases hst with
  | recvCheck m h hp =>
    simpa using hinv
  | recvPut m hp =>
    simp only [List.length_append, List.length_singleton]
    omega
  | setShutdown =>
    simpa using hinv
  | getItem m rest hp hq =>
    rw [hp, hq] at hinv
    simp [holdCount] at hinv ⊢
    omega
  | processItem m hp hs =>
    rw [hp] at hinv
    simp [holdCount] at hinv ⊢
    omega
  | requeueItem m hp hs =>
    rw [hp] at hinv
    simp [holdCount, List.length_append] at hinv ⊢
    omega
  | exitLoop hp hs =>
    rw [hp] at hinv
    simp [holdCount] at hinv ⊢
    omega
  | drainItem m rest hp hq =>
    rw [hq] at hinv
    simp at hinv ⊢
    omega
  | finish hp hq =>
    rw [hp] at hinv
    simp [holdCount] at hinv ⊢
    omega

theorem sysInv_reachable (s : SysState) (h : Reachable s) : SysInv s := by
  induction h with
  | refl => exact sysInv_init
  | tail _ hstep ih => exact sysInv_step _ _ hstep ih

/-- Claim C2 is false on the code: the guard and the `put` of receiver
lines 238-239 are not atomic, so the following interleaving is
reachable — the guard reads the flag as clear for message "a", the
receiver is preempted before the `put`, shutdown is set, the processor
observes it at its loop head, runs the drain pass over the (empty)
queue and returns, and only then the `put` lands.  The resulting state
has the processor done with `enqueued = 1` successfully enqueued
message but `processed + drained = 0`: the enqueued message was neither
processed nor logged during the drain pass. -/
theorem queue_processor_loss_counterexample :
    Reachable ⟨["a"], 0, 0, 1, true, .done, none⟩ ∧
    (SysState.mk ["a"] 0 0 1 true .done none).phase = .done ∧
    (SysState.mk ["a"] 0 0 1 true .done none).processed +
        (SysState.mk ["a"] 0 0 1 true .done none).drained ≠
      (SysState.mk ["a"] 0 0 1 true .done none).enqueued := by
  have h1 : SysStep SysState.init
      ⟨[], 0, 0, 0, false, .running, some "a"⟩ :=
    SysStep.recvCheck SysState.init "a" rfl rfl
  have h2 : SysStep ⟨[], 0, 0, 0, false, .running, some "a"⟩
      ⟨[], 0, 0, 0, true, .running, some "a"⟩ :=
    SysStep.setShutdown ⟨[], 0, 0, 0, false, .running, some "a"⟩
  have h3 : SysStep ⟨[], 0, 0, 0, true, .running, some "a"⟩
      ⟨[], 0, 0, 0, true, .draining, some "a"⟩ :=
    SysStep.exitLoop ⟨[], 0, 0, 0, true, .running, some "a"⟩ rfl rfl
  have h4 : SysStep ⟨[], 0, 0, 0, true, .draining, some "a"⟩
      ⟨[], 0, 0, 0, true, .done, some "a"⟩ :=
    SysStep.finish ⟨[], 0, 0, 0, true, .draining, some "a"⟩ rfl rfl
  have h5 : SysStep ⟨[], 0, 0, 0, true, .done, some "a"⟩
      ⟨["a"], 0, 0, 1, true, .done, none⟩ :=
    SysStep.recvPut ⟨[], 0, 0, 0, true, .done, some "a"⟩ "a" rfl
  have hr : Reachable ⟨["a"], 0, 0, 1, true, .done, none⟩ :=
    Relation.ReflTransGen.tail
      (Relation.ReflTransGen.tail
        (Relation.ReflTransGen.tail
          (Relation.ReflTransGen.tail
            (Relation.ReflTransGen.tail Relation.ReflTransGen.refl h1) h2)
          h3) h4) h5
  exact ⟨hr, rfl, by decide⟩

/-- Claim C2, amended: in every reachable interleaving of the receiver
worker, the queue processor and the shutdown signal — the receiver
guard and its `put` being separate unlocked steps — when the processor
has finished, every successfully enqueued message was either processed
(one `[PROC]` line), logged during the drain pass (one `[CLEANUP]`
line), or still sits in the in-process queue (a `put` that landed after
the drain pass; `check_final_queue_status` reports such leftovers):
`processed + drained + queue.length = enqueued`, so no enqueued message
is dropped, and an item dequeued mid-shutdown is re-enqueued before the
drain (the `requeueItem` step). -/
theorem queue_processor_no_loss (s : SysState) (hr : Reachable s)
    (hd : s.phase = .done) :
    s.processed + s.drained + s.queue.length = s.enqueued := by
  have h1 := sysInv_reachable s hr
  unfold SysInv at h1
  rw [hd] at h1
  simp [holdCount] at h1
  omega

/-- Witness for C2: a concrete run — one message is enqueued, shutdown
arrives, the processor exits its loop and drains the message — reaches
a `done` state with `processed + drained + queue.length = enqueued`
(`0 + 1 + 0 = 1`). -/
theorem queue_processor_no_loss_witness :
    Reachable ⟨[], 0, 1, 1, true, .done, none⟩ ∧ 0 + 1 + 0 = 1 := by
  have h1 : SysStep SysState.init
      ⟨[], 0, 0, 0, false, .running, some "a"⟩ :=
    SysStep.recvCheck SysState.init "a" rfl rfl
  have h2 : SysStep ⟨[], 0, 0, 0, false, .running, some "a"⟩
      ⟨["a"], 0, 0, 1, false, .running, none⟩ :=
    SysStep.recvPut ⟨[], 0, 0, 0, false, .running, some "a"⟩ "a" rfl
  have h3 : SysStep ⟨["a"], 0, 0, 1, false, .running, none⟩
      ⟨["a"], 0, 0, 1, true, .running, none⟩ :=
    SysStep.setShutdown ⟨["a"], 0, 0, 1, false, .running, none⟩
  have h4 : SysStep ⟨["a"], 0, 0, 1, true, .running, none⟩
      ⟨["a"], 0, 0, 1, true, .draining, none⟩ :=
    SysStep.exitLoop ⟨["a"], 0, 0, 1, true, .running, none⟩ rfl rfl
  have h5 : SysStep ⟨["a"], 0, 0, 1, true, .draining, none⟩
      ⟨[], 0, 1, 1, true, .draining, none⟩ :=
    SysStep.drainItem ⟨["a"], 0, 0, 1, true, .draining, none⟩ "a" [] rfl rfl
  have h6 : SysStep ⟨[], 0, 1, 1, true, .draining, none⟩
      ⟨[], 0, 1, 1, true, .done, none⟩ :=
    SysStep.finish ⟨[], 0, 1, 1, true, .draining, none⟩ rfl rfl
  have hr : Reachable ⟨[], 0, 1, 1, true, .done, none⟩ :=
    Relation.ReflTransGen.tail
      (Relation.ReflTransGen.tail
        (Relation.ReflTransGen.tail
          (Relation.ReflTransGen.tail
            (Relation.ReflTransGen.tail
              (Relation.ReflTransGen.tail Relation.ReflTransGen.refl h1) h2)
            h3) h4) h5) h6
  exact ⟨hr, queue_processor_no_loss ⟨[], 0, 1, 1, true, .done, none⟩ hr rfl⟩

end ZmqLab
